import Mathlib

/-!
Shallow embedding of the roast-scoring core of this repository
(src/model/roast_scorer.py, class RoastScorer) and proofs of the
specification's claims about it.

Text is modelled as `List Char` (Python `str`), machine integers as `Int`
(Python ints are unbounded) and Python floats as `ℚ` — every float produced
by the scorer is a sum of integers divided by 1, 2, 3 or 4, then rounded to
one decimal, and all such values and comparisons are exact in binary
floating point terms that matter here (no reachable value sits close enough
to a threshold for float error to flip a comparison), so the rational model
is faithful on every reachable value.
-/

/-- Python `str.strip` whitespace set (ASCII part). -/
def isPySpace (c : Char) : Bool :=
  c == ' ' || c == '\t' || c == '\n' || c == '\r' || c == '\x0b' || c == '\x0c'

/-- Python `str.strip`: drop leading and trailing whitespace. -/
def pyStrip (l : List Char) : List Char :=
  ((l.dropWhile isPySpace).reverse.dropWhile isPySpace).reverse

/-- Python `str.lower` (ASCII). -/
def lowerList (l : List Char) : List Char := l.map Char.toLower

/-- Python `str.upper` (ASCII). -/
def upperList (l : List Char) : List Char := l.map Char.toUpper

/-- Does `hay` start with `needle`? -/
def startsWithSeq : List Char → List Char → Bool
  | [], _ => true
  | _ :: _, [] => false
  | a :: as, b :: bs => a == b && startsWithSeq as bs

/-- Python `needle in hay` substring test. -/
def containsSeq (needle : List Char) : List Char → Bool
  | [] => startsWithSeq needle []
  | c :: rest => startsWithSeq needle (c :: rest) || containsSeq needle rest

/-- Python `str.split(sep)` for a one-character separator. -/
def splitOnChar (sep : Char) : List Char → List (List Char)
  | [] => [[]]
  | c :: rest =>
    if c == sep then [] :: splitOnChar sep rest
    else
      match splitOnChar sep rest with
      | [] => [[c]]
      | x :: xs => (c :: x) :: xs

/-- Python `line.split(sep, 1)` when `sep in line`; `none` when absent. -/
def splitAtFirst (sep : Char) : List Char → Option (List Char × List Char)
  | [] => none
  | c :: rest =>
    if c == sep then some ([], rest)
    else (splitAtFirst sep rest).map (fun p => (c :: p.1, p.2))

/-- Regex `\w` on the ASCII fragment. -/
def isWordChar (c : Char) : Bool := c.isAlphanum || c == '_'

/-- Maximal `\w+` runs of a line; `acc` is the current run, reversed. -/
def wordTokensAux : List Char → List Char → List (List Char)
  | [], acc => if acc.isEmpty then [] else [acc.reverse]
  | c :: rest, acc =>
    if isWordChar c then wordTokensAux rest (c :: acc)
    else if acc.isEmpty then wordTokensAux rest []
    else acc.reverse :: wordTokensAux rest []

def wordTokens (l : List Char) : List (List Char) := wordTokensAux l []

def hasDupTok : List (List Char) → Bool
  | [] => false
  | t :: rest => rest.contains t || hasDupTok rest

/-- Semantics of `re.search(r'\b(\w+)\b.*\b\1\b', text)` from the source:
some full `\w+` token occurs twice with no newline in between (`.` does not
match a newline), i.e. some newline-delimited segment holds a duplicated
token. -/
def hasRepeatedWord (l : List Char) : Bool :=
  (splitOnChar '\n' l).any (fun line => hasDupTok (wordTokens line))

def containsAnyPhrase (ps : List (List Char)) (s : List Char) : Bool :=
  ps.any (fun p => containsSeq p s)

/-- The `comparison_words` list of `_rule_based_score`. -/
def comparisonPhrases : List (List Char) :=
  ["like".toList, "as if".toList, "resembles".toList, "looks like".toList,
   "sounds like".toList]

/-- The `impact_words` list of `_rule_based_score`. -/
def impactWords : List (List Char) :=
  ["never".toList, "always".toList, "nobody".toList, "everyone".toList,
   "worst".toList, "best".toList, "only".toList]

/-- The final `min(10, max(1, s))` clamp of `_rule_based_score`. -/
def clampScore (n : Int) : Int := min 10 (max 1 n)

/-- The length-band delivery adjustment of `_rule_based_score`. -/
def lenAdj (n : Nat) : Int :=
  if 50 ≤ n ∧ n ≤ 150 then 2 else if n < 20 then -2 else if 200 < n then -1 else 0

/-- The exclamation-mark humor adjustment of `_rule_based_score`. -/
def exclAdj (n : Nat) : Int := if n == 1 then 1 else if n > 2 then -1 else 0

/-- Pre-clamp creativity: baseline 5, +2 for a comparison phrase, +1 for a
repeated word. -/
def ruleCreativityPre (roast : List Char) : Int :=
  5 + (if containsAnyPhrase comparisonPhrases (lowerList roast) then 2 else 0)
    + (if hasRepeatedWord (lowerList roast) then 1 else 0)

/-- Pre-clamp humor: baseline 5, exclamation adjustment, +1 for a question
mark. -/
def ruleHumorPre (roast : List Char) : Int :=
  5 + exclAdj (roast.count '!') + (if roast.contains '?' then 1 else 0)

/-- Pre-clamp impact: baseline 5, +1 for an impact word. -/
def ruleImpactPre (roast : List Char) : Int :=
  5 + (if containsAnyPhrase impactWords (lowerList roast) then 1 else 0)

/-- Pre-clamp delivery: baseline 5 plus the length-band adjustment. -/
def ruleDeliveryPre (roast : List Char) : Int := 5 + lenAdj roast.length

/-- Round an exact value half-to-even to an integer, as Python `round` does
on the exactly representable ties that the scorer can produce. -/
def roundHalfEvenZ (x : ℚ) : ℤ :=
  if x - ⌊x⌋ < 1/2 then ⌊x⌋
  else if 1/2 < x - ⌊x⌋ then ⌊x⌋ + 1
  else if ⌊x⌋ % 2 = 0 then ⌊x⌋ else ⌊x⌋ + 1

/-- Python `round(x, 1)` on the scorer's reachable values. -/
def round1 (x : ℚ) : ℚ := ((roundHalfEvenZ (10 * x) : ℤ) : ℚ) / 10

/-- `RoastScorer._get_grade`. -/
def get_grade (x : ℚ) : String :=
  if 9 ≤ x then ("S")
  else if 8 ≤ x then ("A")
  else if 7 ≤ x then ("B")
  else if 6 ≤ x then ("C")
  else if 5 ≤ x then ("D")
  else ("F")

/-- The `feedback_templates` dict of `_generate_feedback`, with its
`.get` default. -/
def feedbackTemplate (k : String) : String :=
  if k == "creativity" then ("Try using more metaphors or unexpected comparisons!")
  else if k == "humor" then ("Add more wit or clever wordplay to make it funnier!")
  else if k == "impact" then ("Make it more cutting - go for the jugular!")
  else if k == "delivery" then ("Work on making it more concise and punchy!")
  else ("keep practicing!")

/-- Python `min(scores, key=scores.get)`: the first key, in the dict's
insertion order creativity, humor, impact, delivery, holding the minimum. -/
def argLowest (c h i d : Int) : String :=
  if c ≤ h ∧ c ≤ i ∧ c ≤ d then ("creativity")
  else if h ≤ i ∧ h ≤ d then ("humor")
  else if i ≤ d then ("impact")
  else ("delivery")

/-- Python `max(scores, key=scores.get)`: the first key holding the maximum. -/
def argHighest (c h i d : Int) : String :=
  if h ≤ c ∧ i ≤ c ∧ d ≤ c then ("creativity")
  else if i ≤ h ∧ d ≤ h then ("humor")
  else if d ≤ i then ("impact")
  else ("delivery")

/-- `RoastScorer._generate_feedback` on the (clamped) scores dict. -/
def generate_feedback (c h i d : Int) : String :=
  if max (max (max c h) i) d - min (min (min c h) i) d > 2 then
    ("Strong " ++ argHighest c h i d ++ ", but " ++ feedbackTemplate (argLowest c h i d))
  else ("Well-balanced roast! Keep it up!")

/-- The dictionary the orchestrator receives from the scorer. -/
structure ScoreRecord where
  creativity : Int
  humor : Int
  impact : Int
  delivery : Int
  overall : ℚ
  feedback : String
  grade : String
  deriving DecidableEq, Repr

/-- Sum of the four clamped rule-based sub-scores. -/
def ruleSum (roast : List Char) : Int :=
  clampScore (ruleCreativityPre roast) + clampScore (ruleHumorPre roast) +
    clampScore (ruleImpactPre roast) + clampScore (ruleDeliveryPre roast)

/-- The unrounded `overall` float of `_rule_based_score`. -/
def ruleOverallRaw (roast : List Char) : ℚ := ((ruleSum roast : ℤ) : ℚ) / 4

/-- `RoastScorer._rule_based_score`. -/
def rule_based_score (roast : List Char) : ScoreRecord :=
  { creativity := clampScore (ruleCreativityPre roast)
    humor := clampScore (ruleHumorPre roast)
    impact := clampScore (ruleImpactPre roast)
    delivery := clampScore (ruleDeliveryPre roast)
    overall := round1 (ruleOverallRaw roast)
    feedback := generate_feedback (clampScore (ruleCreativityPre roast))
      (clampScore (ruleHumorPre roast)) (clampScore (ruleImpactPre roast))
      (clampScore (ruleDeliveryPre roast))
    grade := get_grade (ruleOverallRaw roast) }

/-- Middle of Python `int(str)`: digits with single underscores between
digit groups (the part after the first character). -/
def validDigitsCore : List Char → Bool
  | [] => true
  | '_' :: rest =>
    match rest with
    | [] => false
    | d :: rest2 => d.isDigit && validDigitsCore rest2
  | d :: rest => d.isDigit && validDigitsCore rest

/-- An unsigned Python int literal body: starts with a digit, then
`validDigitsCore`. -/
def validNum : List Char → Bool
  | [] => false
  | c :: rest => c.isDigit && validDigitsCore rest

def digitsVal (l : List Char) : Nat :=
  l.foldl (fun acc c => if c == '_' then acc else acc * 10 + (c.toNat - 48)) 0

/-- Python `int(s)` on ASCII input: strip, optional sign, digits (with
underscore separators); `none` when it raises `ValueError`. -/
def pyInt (s : List Char) : Option Int :=
  match pyStrip s with
  | '+' :: rest => if validNum rest then some ((digitsVal rest : Nat) : Int) else none
  | '-' :: rest => if validNum rest then some (-((digitsVal rest : Nat) : Int)) else none
  | l => if validNum l then some ((digitsVal l : Nat) : Int) else none

/-- The `scores` dict and `feedback` variable built by `_ai_score`'s parsing
loop: a numeric key is `some v` exactly when some `KEY: value` line set it,
with `v` the parsed integer or the per-field default 5. -/
structure ParsedScores where
  creativity : Option Int
  humor : Option Int
  impact : Option Int
  delivery : Option Int
  feedback : List Char
  deriving DecidableEq, Repr

def emptyParsed : ParsedScores := ⟨none, none, none, none, []⟩

/-- One iteration of `_ai_score`'s `for line in lines` loop. -/
def processLine (st : ParsedScores) (line : List Char) : ParsedScores :=
  match splitAtFirst ':' line with
  | none => st
  | some kv =>
    let key := upperList (pyStrip kv.1)
    let value := pyStrip kv.2
    if key == "CREATIVITY".toList then { st with creativity := some ((pyInt value).getD 5) }
    else if key == "HUMOR".toList then { st with humor := some ((pyInt value).getD 5) }
    else if key == "IMPACT".toList then { st with impact := some ((pyInt value).getD 5) }
    else if key == "DELIVERY".toList then { st with delivery := some ((pyInt value).getD 5) }
    else if key == "FEEDBACK".toList then { st with feedback := value }
    else st

/-- The whole parsing loop of `_ai_score` over `response.split('\n')`. -/
def parseResponse (resp : List Char) : ParsedScores :=
  (splitOnChar '\n' resp).foldl processLine emptyParsed

/-- `scores.values()` (order does not affect any use). -/
def presentValues (p : ParsedScores) : List Int :=
  [p.creativity, p.humor, p.impact, p.delivery].filterMap id

/-- `len(scores)`. -/
def numPresent (p : ParsedScores) : Nat := (presentValues p).length

/-- `sum(scores.values())`. -/
def sumPresent (p : ParsedScores) : Int :=
  (presentValues p).foldl (fun a b => a + b) 0

/-- The unrounded `overall = sum(scores.values()) / len(scores)` of
`_ai_score` (used only when at least one key was recovered). -/
def aiOverallRaw (resp : List Char) : ℚ :=
  ((sumPresent (parseResponse (pyStrip resp)) : ℤ) : ℚ) /
    ((numPresent (parseResponse (pyStrip resp)) : ℕ) : ℚ)

/-- The body of `_ai_score` after the remote call returned `resp`: parse,
fall back wholesale when no numeric key was recovered, otherwise build the
record with per-field defaults. -/
def ai_score_from_response (roast resp : List Char) : ScoreRecord :=
  let p := parseResponse (pyStrip resp)
  if numPresent p = 0 then rule_based_score roast
  else
    { creativity := (p.creativity).getD 5
      humor := (p.humor).getD 5
      impact := (p.impact).getD 5
      delivery := (p.delivery).getD 5
      overall := round1 (aiOverallRaw resp)
      feedback := if p.feedback.isEmpty then ("Nice roast!") else String.mk p.feedback
      grade := get_grade (aiOverallRaw resp) }

/-- `RoastScorer._ai_score`: the remote exchange is abstracted as an
`Except` value — `Except.error` for any transport-level failure (the
`except` clause falls back), `Except.ok resp` for a returned, stripped
response text. -/
def ai_score (outcome : Except String (List Char)) (roast : List Char) : ScoreRecord :=
  match outcome with
  | Except.ok resp => ai_score_from_response roast resp
  | Except.error _ => rule_based_score roast

/-- `RoastScorer.score_roast`: `useAI` is the `self.use_ai` mode flag fixed
at construction. -/
def score_roast (useAI : Bool) (outcome : Except String (List Char)) (roast : List Char) :
    ScoreRecord :=
  if useAI then ai_score outcome roast else rule_based_score roast

/-- The `try` body of `_ai_score` with its error channel explicit: an
`Except.error` models an exception in flight before the handler runs. -/
def aiScoreTry (outcome : Except String (List Char)) (roast : List Char) :
    Except String ScoreRecord :=
  match outcome with
  | Except.error e => Except.error e
  | Except.ok resp => Except.ok (ai_score_from_response roast resp)

/-- `score_roast` with the exception channel of its boundary kept visible:
what the caller would observe, an `Except.error` meaning an exception
escaped the scorer. -/
def scoreRoastE (useAI : Bool) (outcome : Except String (List Char)) (roast : List Char) :
    Except String ScoreRecord :=
  if useAI then
    match aiScoreTry outcome roast with
    | Except.ok r => Except.ok r
    | Except.error _ => Except.ok (rule_based_score roast)
  else Except.ok (rule_based_score roast)

/-- `RoastScorer.compare_roasts`, with one remote outcome per `score_roast`
call. -/
def compare_roasts (useAI : Bool) (o1 o2 : Except String (List Char)) (r1 r2 : List Char) :
    ScoreRecord × ScoreRecord × String :=
  let s1 := score_roast useAI o1 r1
  let s2 := score_roast useAI o2 r2
  if s1.overall > s2.overall then (s1, s2, ("Roast 1"))
  else if s2.overall > s1.overall then (s1, s2, ("Roast 2"))
  else (s1, s2, ("Tie"))

/-! ## Helper lemmas -/

lemma clampScore_bounds (n : Int) : 1 ≤ clampScore n ∧ clampScore n ≤ 10 := by
  unfold clampScore
  constructor
  · exact le_min (by norm_num) (le_max_left 1 n)
  · exact min_le_left _ _

lemma clampScore_eq_self {n : Int} (h1 : 1 ≤ n) (h2 : n ≤ 10) : clampScore n = n := by
  unfold clampScore
  rw [max_eq_right h1, min_eq_right h2]

lemma ruleCreativityPre_bounds (r : List Char) :
    5 ≤ ruleCreativityPre r ∧ ruleCreativityPre r ≤ 8 := by
  unfold ruleCreativityPre
  split_ifs <;> omega

lemma ruleHumorPre_bounds (r : List Char) : 4 ≤ ruleHumorPre r ∧ ruleHumorPre r ≤ 7 := by
  unfold ruleHumorPre exclAdj
  split_ifs <;> omega

lemma ruleImpactPre_bounds (r : List Char) : 5 ≤ ruleImpactPre r ∧ ruleImpactPre r ≤ 6 := by
  unfold ruleImpactPre
  split_ifs <;> omega

lemma ruleDeliveryPre_bounds (r : List Char) :
    3 ≤ ruleDeliveryPre r ∧ ruleDeliveryPre r ≤ 7 := by
  unfold ruleDeliveryPre lenAdj
  split_ifs <;> omega

lemma ruleSum_bounds (r : List Char) : 17 ≤ ruleSum r ∧ ruleSum r ≤ 28 := by
  obtain ⟨hc1, hc2⟩ := ruleCreativityPre_bounds r
  obtain ⟨hh1, hh2⟩ := ruleHumorPre_bounds r
  obtain ⟨hi1, hi2⟩ := ruleImpactPre_bounds r
  obtain ⟨hd1, hd2⟩ := ruleDeliveryPre_bounds r
  unfold ruleSum
  rw [clampScore_eq_self (by omega) (by omega), clampScore_eq_self (by omega) (by omega),
    clampScore_eq_self (by omega) (by omega), clampScore_eq_self (by omega) (by omega)]
  omega

/-! ## Claims C1, C4, C5, C8 -/

/-- C1 (amended): every ScoreRecord produced by rule-based scoring — the
standalone mode and every AI-mode fallback — has all four sub-scores in
[1, 10].  (In AI mode the parsed sub-scores are stored without clamping,
see the counterexample.) -/
theorem c1_rule_based_subscores_in_range (roast : List Char) :
    (1 ≤ (rule_based_score roast).creativity ∧ (rule_based_score roast).creativity ≤ 10) ∧
    (1 ≤ (rule_based_score roast).humor ∧ (rule_based_score roast).humor ≤ 10) ∧
    (1 ≤ (rule_based_score roast).impact ∧ (rule_based_score roast).impact ≤ 10) ∧
    (1 ≤ (rule_based_score roast).delivery ∧ (rule_based_score roast).delivery ≤ 10) := by
  refine ⟨?_, ?_, ?_, ?_⟩ <;> exact clampScore_bounds _

/-- C1 counterexample: in AI mode a remote response reporting
`CREATIVITY: 11` yields a record whose creativity sub-score is 11, outside
[1, 10] — `_ai_score` stores parsed values without clamping. -/
theorem c1_ai_subscore_out_of_range :
    ¬ (1 ≤ (score_roast true
          (Except.ok (("CREATIVITY: 11\nHUMOR: 5\nIMPACT: 5\nDELIVERY: 5").toList))
          []).creativity ∧
       (score_roast true
          (Except.ok (("CREATIVITY: 11\nHUMOR: 5\nIMPACT: 5\nDELIVERY: 5").toList))
          []).creativity ≤ 10) := by
  decide

/-- C4: rule-based scoring is a deterministic pure function of the input
text: the result of a rule-based `score_roast` call does not depend on the
remote outcome at all, and two invocations on the same string are equal. -/
theorem c4_rule_based_deterministic :
    ∀ (o o' : Except String (List Char)) (r : List Char),
      score_roast false o r = score_roast false o' r ∧
      rule_based_score r = rule_based_score r :=
  fun _ _ _ => ⟨rfl, rfl⟩

/-- C5: when the parsing loop of `_ai_score` recovers none of the four
numeric keys from the remote response, AI-mode scoring returns exactly the
rule-based record for the same roast text. -/
theorem c5_no_numeric_keys_falls_back (roast resp : List Char)
    (h : numPresent (parseResponse (pyStrip resp)) = 0) :
    score_roast true (Except.ok resp) roast = rule_based_score roast := by
  show ai_score_from_response roast resp = rule_based_score roast
  unfold ai_score_from_response
  simp only [h, if_pos]

/-- C5 witness: a canned response with no `KEY: value` line at all falls
back to rule-based scoring. -/
theorem c5_witness :
    numPresent (parseResponse (pyStrip (("model unavailable right now").toList))) = 0 ∧
    score_roast true (Except.ok (("model unavailable right now").toList))
        (("test roast").toList) =
      rule_based_score (("test roast").toList) :=
  ⟨rfl, c5_no_numeric_keys_falls_back _ _ rfl⟩

/-- C8: the delivery length bands of `_rule_based_score` are exactly the
claimed disjoint bands, and a 100-character string scores pre-clamp
delivery at least 2 higher than a 10-character one. -/
theorem c8_length_bands :
    (∀ n : ℕ,
      (50 ≤ n ∧ n ≤ 150 → lenAdj n = 2) ∧
      (n < 20 → lenAdj n = -2) ∧
      (200 < n → lenAdj n = -1) ∧
      ((20 ≤ n ∧ n < 50) ∨ (150 < n ∧ n ≤ 200) → lenAdj n = 0)) ∧
    (∀ s t : List Char, s.length = 100 → t.length = 10 →
      ruleDeliveryPre t + 2 ≤ ruleDeliveryPre s) := by
  constructor
  · intro n
    refine ⟨?_, ?_, ?_, ?_⟩ <;> (intro h; unfold lenAdj; split_ifs <;> omega)
  · intro s t hs ht
    unfold ruleDeliveryPre
    rw [hs, ht]
    norm_num [lenAdj]

/-- C8 witness: concrete strings of lengths 100 and 10. -/
theorem c8_witness :
    ruleDeliveryPre (List.replicate 10 'b') + 2 ≤ ruleDeliveryPre (List.replicate 100 'a') :=
  c8_length_bands.2 _ _ (by simp) (by simp)

/-! ## Rounding and grade lemmas -/

lemma roundHalfEvenZ_cases (x : ℚ) :
    roundHalfEvenZ x = ⌊x⌋ ∨ roundHalfEvenZ x = ⌊x⌋ + 1 := by
  unfold roundHalfEvenZ
  split_ifs <;> simp

lemma floor_round1_eq {x : ℚ} (h : x - ⌊x⌋ ≤ 3/4) : ⌊round1 x⌋ = ⌊x⌋ := by
  have hle : (⌊x⌋ : ℚ) ≤ x := Int.floor_le x
  have hlow : 10 * ⌊x⌋ ≤ ⌊10 * x⌋ := by
    rw [Int.le_floor]
    push_cast
    linarith
  have hup : ⌊10 * x⌋ < 10 * ⌊x⌋ + 8 := by
    rw [Int.floor_lt]
    push_cast
    linarith
  have hr1 : 10 * ⌊x⌋ ≤ roundHalfEvenZ (10 * x) := by
    rcases roundHalfEvenZ_cases (10 * x) with h1 | h1 <;> omega
  have hr2 : roundHalfEvenZ (10 * x) ≤ 10 * ⌊x⌋ + 8 := by
    rcases roundHalfEvenZ_cases (10 * x) with h1 | h1 <;> omega
  have c1 : (10 : ℚ) * ⌊x⌋ ≤ (roundHalfEvenZ (10 * x) : ℚ) := by exact_mod_cast hr1
  have c2 : (roundHalfEvenZ (10 * x) : ℚ) ≤ 10 * ⌊x⌋ + 8 := by exact_mod_cast hr2
  rw [round1, Int.floor_eq_iff]
  constructor
  · linarith
  · linarith

lemma get_grade_congr {x y : ℚ} (h : ⌊x⌋ = ⌊y⌋) : get_grade x = get_grade y := by
  have key : ∀ t : ℤ, ((t : ℚ) ≤ x ↔ (t : ℚ) ≤ y) := by
    intro t
    rw [← Int.le_floor, ← Int.le_floor, h]
  have h9 : ((9 : ℚ) ≤ x ↔ (9 : ℚ) ≤ y) := by exact_mod_cast key 9
  have h8 : ((8 : ℚ) ≤ x ↔ (8 : ℚ) ≤ y) := by exact_mod_cast key 8
  have h7 : ((7 : ℚ) ≤ x ↔ (7 : ℚ) ≤ y) := by exact_mod_cast key 7
  have h6 : ((6 : ℚ) ≤ x ↔ (6 : ℚ) ≤ y) := by exact_mod_cast key 6
  have h5 : ((5 : ℚ) ≤ x ↔ (5 : ℚ) ≤ y) := by exact_mod_cast key 5
  simp only [get_grade, h9, h8, h7, h6, h5]

lemma div4_floor (s : ℤ) :
    ⌊(s : ℚ) / 4⌋ = s / 4 ∧ (s : ℚ) / 4 - ⌊(s : ℚ) / 4⌋ ≤ 3 / 4 := by
  have hs : 4 * (s / 4) + s % 4 = s := Int.ediv_add_emod s 4
  have hr0 : 0 ≤ s % 4 := Int.emod_nonneg s (by norm_num)
  have hr3 : s % 4 < 4 := Int.emod_lt_of_pos s (by norm_num)
  have hx : (s : ℚ) / 4 = ((s / 4 : ℤ) : ℚ) + ((s % 4 : ℤ) : ℚ) / 4 := by
    have h' : (s : ℚ) = 4 * ((s / 4 : ℤ) : ℚ) + ((s % 4 : ℤ) : ℚ) := by
      exact_mod_cast hs.symm
    rw [h']
    ring
  have hfrac0 : (0 : ℚ) ≤ ((s % 4 : ℤ) : ℚ) / 4 := by positivity
  have hfrac1 : ((s % 4 : ℤ) : ℚ) / 4 < 1 := by
    rw [div_lt_one (by norm_num)]
    exact_mod_cast hr3
  have hfloor : ⌊(s : ℚ) / 4⌋ = s / 4 := by
    rw [hx, Int.floor_int_add, Int.floor_eq_zero_iff.2 ⟨hfrac0, hfrac1⟩, add_zero]
  refine ⟨hfloor, ?_⟩
  rw [hfloor, hx]
  have h3 : ((s % 4 : ℤ) : ℚ) ≤ 3 := by exact_mod_cast (by omega : s % 4 ≤ 3)
  linarith

lemma get_grade_round1_div4 (s : ℤ) :
    get_grade (round1 ((s : ℚ) / 4)) = get_grade ((s : ℚ) / 4) :=
  get_grade_congr (floor_round1_eq (div4_floor s).2)

lemma get_grade_lt8 {x : ℚ} (h : x < 8) : get_grade x ≠ "S" ∧ get_grade x ≠ "A" := by
  unfold get_grade
  split_ifs <;> first
  | exact (by linarith : False).elim
  | exact ⟨by decide, by decide⟩

/-! ## Claim C7 -/

/-- C7: `_get_grade` maps every overall value by the inclusive lower-bound
threshold table S/A/B/C/D/F, and both scoring modes derive the stored grade
by applying this same function to their (unrounded) overall value. -/
theorem c7_grade_thresholds :
    (∀ x : ℚ,
      (9 ≤ x → get_grade x = "S") ∧
      (8 ≤ x → x < 9 → get_grade x = "A") ∧
      (7 ≤ x → x < 8 → get_grade x = "B") ∧
      (6 ≤ x → x < 7 → get_grade x = "C") ∧
      (5 ≤ x → x < 6 → get_grade x = "D") ∧
      (x < 5 → get_grade x = "F")) ∧
    (∀ roast : List Char,
      (rule_based_score roast).grade = get_grade (ruleOverallRaw roast)) ∧
    (∀ roast resp : List Char, numPresent (parseResponse (pyStrip resp)) ≠ 0 →
      (score_roast true (Except.ok resp) roast).grade = get_grade (aiOverallRaw resp)) := by
  refine ⟨?_, fun _ => rfl, ?_⟩
  · intro x
    refine ⟨?_, ?_, ?_, ?_, ?_, ?_⟩ <;>
      (intros; unfold get_grade; split_ifs <;> first | rfl | linarith)
  · intro roast resp h
    show (ai_score_from_response roast resp).grade = _
    simp only [ai_score_from_response]
    rw [if_neg h]

/-- C7 witness: the thresholds and the AI-mode grade derivation at concrete
inputs. -/
theorem c7_witness :
    get_grade 9 = "S" ∧
    (score_roast true (Except.ok (("CREATIVITY: 8\nFEEDBACK: ok").toList))
        (("hey").toList)).grade =
      get_grade (aiOverallRaw (("CREATIVITY: 8\nFEEDBACK: ok").toList)) :=
  ⟨(c7_grade_thresholds.1 9).1 (le_refl _),
    c7_grade_thresholds.2.2 _ _ (by decide)⟩

/-! ## Claim C10 -/

/-- C10 (amended): rule-based sub-scores always lie in the narrow bands
creativity [5,8], humor [4,7], impact [5,6], delivery [3,7], so the final
[1,10] clamp never changes any value; the unrounded overall lies in
[17/4, 7] while the stored (rounded) overall lies in [21/5, 7]; the grade
is never S or A.  (The claim's stored-overall lower bound 17/4 = 4.25
fails, see the counterexample: rounding can produce 4.2.) -/
theorem c10_rule_based_ranges_amended (roast : List Char) :
    (5 ≤ (rule_based_score roast).creativity ∧ (rule_based_score roast).creativity ≤ 8) ∧
    (4 ≤ (rule_based_score roast).humor ∧ (rule_based_score roast).humor ≤ 7) ∧
    (5 ≤ (rule_based_score roast).impact ∧ (rule_based_score roast).impact ≤ 6) ∧
    (3 ≤ (rule_based_score roast).delivery ∧ (rule_based_score roast).delivery ≤ 7) ∧
    (rule_based_score roast).creativity = ruleCreativityPre roast ∧
    (rule_based_score roast).humor = ruleHumorPre roast ∧
    (rule_based_score roast).impact = ruleImpactPre roast ∧
    (rule_based_score roast).delivery = ruleDeliveryPre roast ∧
    ((17 / 4 : ℚ) ≤ ruleOverallRaw roast ∧ ruleOverallRaw roast ≤ 7) ∧
    ((21 / 5 : ℚ) ≤ (rule_based_score roast).overall ∧
      (rule_based_score roast).overall ≤ 7) ∧
    (rule_based_score roast).grade ≠ "S" ∧ (rule_based_score roast).grade ≠ "A" := by
  obtain ⟨hc1, hc2⟩ := ruleCreativityPre_bounds roast
  obtain ⟨hh1, hh2⟩ := ruleHumorPre_bounds roast
  obtain ⟨hi1, hi2⟩ := ruleImpactPre_bounds roast
  obtain ⟨hd1, hd2⟩ := ruleDeliveryPre_bounds roast
  have ec : (rule_based_score roast).creativity = ruleCreativityPre roast :=
    clampScore_eq_self (by omega) (by omega)
  have eh : (rule_based_score roast).humor = ruleHumorPre roast :=
    clampScore_eq_self (by omega) (by omega)
  have ei : (rule_based_score roast).impact = ruleImpactPre roast :=
    clampScore_eq_self (by omega) (by omega)
  have ed : (rule_based_score roast).delivery = ruleDeliveryPre roast :=
    clampScore_eq_self (by omega) (by omega)
  have hs := ruleSum_bounds roast
  have hq1 : ((ruleSum roast : ℤ) : ℚ) ≥ 17 := by exact_mod_cast hs.1
  have hq2 : ((ruleSum roast : ℤ) : ℚ) ≤ 28 := by exact_mod_cast hs.2
  have hraw1 : (17 / 4 : ℚ) ≤ ruleOverallRaw roast := by
    unfold ruleOverallRaw
    linarith
  have hraw2 : ruleOverallRaw roast ≤ 7 := by
    unfold ruleOverallRaw
    linarith
  have hov : (rule_based_score roast).overall = round1 (ruleOverallRaw roast) := rfl
  have hstored : (21 / 5 : ℚ) ≤ round1 (ruleOverallRaw roast) ∧
      round1 (ruleOverallRaw roast) ≤ 7 := by
    have h1 := hs.1
    have h2 := hs.2
    obtain ⟨s, hseq⟩ : ∃ s : ℤ, ruleSum roast = s := ⟨_, rfl⟩
    rw [hseq] at h1 h2
    unfold ruleOverallRaw
    rw [hseq]
    interval_cases s <;> norm_num [round1, roundHalfEvenZ]
  have hg : (rule_based_score roast).grade = get_grade (ruleOverallRaw roast) := rfl
  have hns := get_grade_lt8 (show ruleOverallRaw roast < 8 by linarith)
  rw [ec, eh, ei, ed, hov, hg]
  exact ⟨⟨hc1, hc2⟩, ⟨hh1, hh2⟩, ⟨hi1, hi2⟩, ⟨hd1, hd2⟩, rfl, rfl, rfl, rfl,
    ⟨hraw1, hraw2⟩, hstored, hns⟩

/-- C10 counterexample: the roast text consisting of three exclamation
marks has stored overall 4.2, strictly below the claimed lower bound
4.25 = 17/4 (Python rounds the exact mean 4.25 half-to-even to 4.2). -/
theorem c10_overall_below_claimed_bound :
    ¬ ((17 / 4 : ℚ) ≤ (rule_based_score (("!!!").toList)).overall ∧
       (rule_based_score (("!!!").toList)).overall ≤ 7) := by
  have h1 : (rule_based_score (("!!!").toList)).overall =
      round1 (ruleOverallRaw (("!!!").toList)) := rfl
  have h2 : ruleSum (("!!!").toList) = 17 := by decide
  have h3 : ruleOverallRaw (("!!!").toList) = (17 : ℚ) / 4 := by
    unfold ruleOverallRaw
    rw [h2]
    norm_num
  rw [h1, h3]
  norm_num [round1, roundHalfEvenZ]

/-! ## Claim C2 -/

/-- C2 (amended): in rule-based mode the stored overall is the mean of the
four stored sub-scores rounded to one decimal and the stored grade is the
threshold table applied to the stored overall; the same holds in AI mode
whenever all four numeric keys were recovered from the response (the
sub-scores are then the parsed values).  (When fewer keys are recovered the
stored overall averages only the recovered values while missing fields are
stored as 5, see the counterexample.) -/
theorem c2_overall_grade_consistency_amended :
    (∀ roast : List Char,
      (rule_based_score roast).overall =
        round1 ((((rule_based_score roast).creativity + (rule_based_score roast).humor +
          (rule_based_score roast).impact + (rule_based_score roast).delivery : ℤ) : ℚ) / 4) ∧
      (rule_based_score roast).grade = get_grade ((rule_based_score roast).overall)) ∧
    (∀ (roast resp : List Char) (c h i d : ℤ),
      (parseResponse (pyStrip resp)).creativity = some c →
      (parseResponse (pyStrip resp)).humor = some h →
      (parseResponse (pyStrip resp)).impact = some i →
      (parseResponse (pyStrip resp)).delivery = some d →
      (score_roast true (Except.ok resp) roast).creativity = c ∧
      (score_roast true (Except.ok resp) roast).humor = h ∧
      (score_roast true (Except.ok resp) roast).impact = i ∧
      (score_roast true (Except.ok resp) roast).delivery = d ∧
      (score_roast true (Except.ok resp) roast).overall =
        round1 (((c + h + i + d : ℤ) : ℚ) / 4) ∧
      (score_roast true (Except.ok resp) roast).grade =
        get_grade ((score_roast true (Except.ok resp) roast).overall)) := by
  constructor
  · intro roast
    exact ⟨rfl, (get_grade_round1_div4 (ruleSum roast)).symm⟩
  · intro roast resp c h i d hc hh hi hd
    have hpv : presentValues (parseResponse (pyStrip resp)) = [c, h, i, d] := by
      unfold presentValues
      rw [hc, hh, hi, hd]
      rfl
    have hnum : numPresent (parseResponse (pyStrip resp)) = 4 := by
      unfold numPresent
      rw [hpv]
      rfl
    have hsum : sumPresent (parseResponse (pyStrip resp)) = c + h + i + d := by
      unfold sumPresent
      rw [hpv]
      show 0 + c + h + i + d = c + h + i + d
      omega
    have hne : ¬ (numPresent (parseResponse (pyStrip resp)) = 0) := by
      rw [hnum]
      omega
    have hair : aiOverallRaw resp = ((c + h + i + d : ℤ) : ℚ) / 4 := by
      unfold aiOverallRaw
      rw [hsum, hnum]
      norm_num
    have hshow : score_roast true (Except.ok resp) roast = ai_score_from_response roast resp :=
      rfl
    rw [hshow]
    simp only [ai_score_from_response]
    rw [if_neg hne]
    refine ⟨by simp [hc], by simp [hh], by simp [hi], by simp [hd], ?_, ?_⟩
    · show round1 (aiOverallRaw resp) = _
      rw [hair]
    · show get_grade (aiOverallRaw resp) = get_grade (round1 (aiOverallRaw resp))
      rw [hair]
      exact (get_grade_round1_div4 (c + h + i + d)).symm

/-- C2 counterexample: in AI mode a response carrying only `CREATIVITY: 9`
yields a record with sub-scores 9, 5, 5, 5 whose stored overall is 9.0 —
the mean over the single recovered key — while the rounded mean of the four
stored sub-scores is 6.0. -/
theorem c2_overall_not_mean_of_fields :
    (score_roast true (Except.ok (("CREATIVITY: 9").toList)) []).overall ≠
      round1 ((((score_roast true (Except.ok (("CREATIVITY: 9").toList)) []).creativity +
        (score_roast true (Except.ok (("CREATIVITY: 9").toList)) []).humor +
        (score_roast true (Except.ok (("CREATIVITY: 9").toList)) []).impact +
        (score_roast true (Except.ok (("CREATIVITY: 9").toList)) []).delivery : ℤ) : ℚ) / 4) := by
  have h1 : (score_roast true (Except.ok (("CREATIVITY: 9").toList)) []).creativity = 9 := by
    decide
  have h2 : (score_roast true (Except.ok (("CREATIVITY: 9").toList)) []).humor = 5 := by
    decide
  have h3 : (score_roast true (Except.ok (("CREATIVITY: 9").toList)) []).impact = 5 := by
    decide
  have h4 : (score_roast true (Except.ok (("CREATIVITY: 9").toList)) []).delivery = 5 := by
    decide
  have hov : (score_roast true (Except.ok (("CREATIVITY: 9").toList)) []).overall =
      round1 (aiOverallRaw (("CREATIVITY: 9").toList)) := rfl
  have hair : aiOverallRaw (("CREATIVITY: 9").toList) = 9 := by
    unfold aiOverallRaw
    rw [show sumPresent (parseResponse (pyStrip (("CREATIVITY: 9").toList))) = 9 from rfl,
      show numPresent (parseResponse (pyStrip (("CREATIVITY: 9").toList))) = 1 from rfl]
    norm_num
  rw [h1, h2, h3, h4, hov, hair]
  norm_num [round1, roundHalfEvenZ]

/-- C2 witness: a fully well-formed AI response satisfies the amended
consistency property. -/
theorem c2_witness :
    (parseResponse
      (pyStrip (("CREATIVITY: 8\nHUMOR: 7\nIMPACT: 6\nDELIVERY: 9").toList))).creativity =
        some 8 ∧
    (score_roast true (Except.ok (("CREATIVITY: 8\nHUMOR: 7\nIMPACT: 6\nDELIVERY: 9").toList))
        (("hey").toList)).overall =
      round1 (((8 + 7 + 6 + 9 : ℤ) : ℚ) / 4) :=
  ⟨rfl,
    (c2_overall_grade_consistency_amended.2 (("hey").toList)
      (("CREATIVITY: 8\nHUMOR: 7\nIMPACT: 6\nDELIVERY: 9").toList) 8 7 6 9
      rfl rfl rfl rfl).2.2.2.2.1⟩

/-! ## Claim C3 -/

lemma ai_no_keys_eq_rule_based {roast resp : List Char}
    (h : numPresent (parseResponse (pyStrip resp)) = 0) :
    ai_score_from_response roast resp = rule_based_score roast := by
  unfold ai_score_from_response
  simp only [h, if_pos]

/-- C3: for every mode, roast string and remote outcome the scorer's
boundary yields `Except.ok` of a ScoreRecord — no exception or error value
ever escapes — and both a transport failure and a response with no
recognizable numeric key degrade to the rule-based record. -/
theorem c3_score_never_raises :
    ∀ (useAI : Bool) (o : Except String (List Char)) (roast : List Char),
      (∃ r : ScoreRecord, scoreRoastE useAI o roast = Except.ok r) ∧
      (∀ e : String, o = Except.error e →
        scoreRoastE useAI o roast = Except.ok (rule_based_score roast)) ∧
      (∀ resp : List Char, o = Except.ok resp →
        numPresent (parseResponse (pyStrip resp)) = 0 →
        scoreRoastE useAI o roast = Except.ok (rule_based_score roast)) := by
  intro useAI o roast
  cases useAI with
  | false => exact ⟨⟨_, rfl⟩, fun _ _ => rfl, fun _ _ _ => rfl⟩
  | true =>
    cases o with
    | error e =>
      exact ⟨⟨_, rfl⟩, fun _ _ => rfl, fun _ hcontra _ => Except.noConfusion hcontra⟩
    | ok resp =>
      refine ⟨⟨ai_score_from_response roast resp, rfl⟩,
        fun _ hcontra => Except.noConfusion hcontra, ?_⟩
      intro resp2 heq h0
      cases heq
      show Except.ok (ai_score_from_response roast resp) = _
      rw [ai_no_keys_eq_rule_based h0]

/-- C3 witness: a transport failure in AI mode still yields an `ok`
rule-based record. -/
theorem c3_witness :
    scoreRoastE true (Except.error ("connection refused")) (("any roast").toList) =
      Except.ok (rule_based_score (("any roast").toList)) :=
  (c3_score_never_raises true (Except.error ("connection refused"))
    (("any roast").toList)).2.1 _ rfl

/-! ## Claim C9 -/

/-- C9: `compare_roasts` returns the two ScoreRecords of its arguments in
argument order; the winner is decided solely by comparing the two stored
overall values, exact equality giving the tie; and swapping the arguments
(with their remote outcomes) swaps which side wins, ties staying ties. -/
theorem c9_compare_roasts :
    ∀ (useAI : Bool) (o1 o2 : Except String (List Char)) (r1 r2 : List Char),
      (compare_roasts useAI o1 o2 r1 r2).1 = score_roast useAI o1 r1 ∧
      (compare_roasts useAI o1 o2 r1 r2).2.1 = score_roast useAI o2 r2 ∧
      (compare_roasts useAI o1 o2 r1 r2).2.2 =
        (if (score_roast useAI o1 r1).overall > (score_roast useAI o2 r2).overall
          then ("Roast 1")
         else if (score_roast useAI o2 r2).overall > (score_roast useAI o1 r1).overall
          then ("Roast 2")
         else ("Tie")) ∧
      ((compare_roasts useAI o1 o2 r1 r2).2.2 = "Roast 1" ↔
        (compare_roasts useAI o2 o1 r2 r1).2.2 = "Roast 2") ∧
      ((compare_roasts useAI o1 o2 r1 r2).2.2 = "Tie" ↔
        (compare_roasts useAI o2 o1 r2 r1).2.2 = "Tie") := by
  intro useAI o1 o2 r1 r2
  refine ⟨?_, ?_, ?_, ?_, ?_⟩ <;>
    (simp only [compare_roasts]; split_ifs <;> first | (exfalso; linarith) | simp)

/-! ## Claim C6 -/

lemma processLine_creativity (st : ParsedScores) (v : List Char) :
    processLine st (("CREATIVITY:").toList ++ v) =
      { st with creativity := some ((pyInt (pyStrip v)).getD 5) } := rfl

lemma processLine_humor (st : ParsedScores) (v : List Char) :
    processLine st (("HUMOR:").toList ++ v) =
      { st with humor := some ((pyInt (pyStrip v)).getD 5) } := rfl

lemma processLine_impact (st : ParsedScores) (v : List Char) :
    processLine st (("IMPACT:").toList ++ v) =
      { st with impact := some ((pyInt (pyStrip v)).getD 5) } := rfl

lemma processLine_delivery (st : ParsedScores) (v : List Char) :
    processLine st (("DELIVERY:").toList ++ v) =
      { st with delivery := some ((pyInt (pyStrip v)).getD 5) } := rfl

/-- C6: when the (stripped) response consists of the four `KEY:value`
lines in order and the DELIVERY value fails integer parsing while the other
three parse, the record stores delivery 5, the other three values verbatim,
and the overall is the rounded mean of all four including the defaulted 5. -/
theorem c6_partial_delivery_default :
    ∀ (roast resp sc sh si sd : List Char) (c h i : ℤ),
      splitOnChar '\n' (pyStrip resp) =
        [("CREATIVITY:").toList ++ sc, ("HUMOR:").toList ++ sh,
         ("IMPACT:").toList ++ si, ("DELIVERY:").toList ++ sd] →
      pyInt (pyStrip sc) = some c →
      pyInt (pyStrip sh) = some h →
      pyInt (pyStrip si) = some i →
      pyInt (pyStrip sd) = none →
      (score_roast true (Except.ok resp) roast).delivery = 5 ∧
      (score_roast true (Except.ok resp) roast).creativity = c ∧
      (score_roast true (Except.ok resp) roast).humor = h ∧
      (score_roast true (Except.ok resp) roast).impact = i ∧
      (score_roast true (Except.ok resp) roast).overall =
        round1 (((c + h + i + 5 : ℤ) : ℚ) / 4) := by
  intro roast resp sc sh si sd c h i hlines hc hh hi hd
  have hparse : parseResponse (pyStrip resp) =
      { creativity := some c, humor := some h, impact := some i,
        delivery := some 5, feedback := [] } := by
    unfold parseResponse
    rw [hlines]
    simp only [List.foldl_cons, List.foldl_nil]
    rw [processLine_creativity, processLine_humor, processLine_impact, processLine_delivery,
      hc, hh, hi, hd]
    rfl
  have hpv : presentValues (parseResponse (pyStrip resp)) = [c, h, i, 5] := by
    rw [hparse]
    rfl
  have hnum : numPresent (parseResponse (pyStrip resp)) = 4 := by
    unfold numPresent
    rw [hpv]
    rfl
  have hsum : sumPresent (parseResponse (pyStrip resp)) = c + h + i + 5 := by
    unfold sumPresent
    rw [hpv]
    show 0 + c + h + i + 5 = c + h + i + 5
    omega
  have hne : ¬ (numPresent (parseResponse (pyStrip resp)) = 0) := by
    rw [hnum]
    omega
  have hair : aiOverallRaw resp = ((c + h + i + 5 : ℤ) : ℚ) / 4 := by
    unfold aiOverallRaw
    rw [hsum, hnum]
    norm_num
  have hshow : score_roast true (Except.ok resp) roast = ai_score_from_response roast resp :=
    rfl
  rw [hshow]
  simp only [ai_score_from_response]
  rw [if_neg hne]
  refine ⟨by simp [hparse], by simp [hparse], by simp [hparse], by simp [hparse], ?_⟩
  show round1 (aiOverallRaw resp) = _
  rw [hair]

/-- C6 witness: a canned response whose DELIVERY line holds non-numeric
text. -/
theorem c6_witness :
    (score_roast true (Except.ok (("CREATIVITY:8\nHUMOR:7\nIMPACT:9\nDELIVERY:great").toList))
        (("hey").toList)).delivery = 5 ∧
    (score_roast true (Except.ok (("CREATIVITY:8\nHUMOR:7\nIMPACT:9\nDELIVERY:great").toList))
        (("hey").toList)).overall = round1 (((8 + 7 + 9 + 5 : ℤ) : ℚ) / 4) := by
  have h := c6_partial_delivery_default (("hey").toList)
    (("CREATIVITY:8\nHUMOR:7\nIMPACT:9\nDELIVERY:great").toList)
    (("8").toList) (("7").toList) (("9").toList) (("great").toList) 8 7 9
    (by decide) rfl rfl rfl rfl
  exact ⟨h.1, h.2.2.2.2⟩
